import Mathlib

/-!
Shallow embedding of the lunar-lander controllers of the `controller-synthesis`
repository (directory `src/controller/`), together with theorems settling the
specification claims about them.

Python floats are modelled as `Option ℚ`: `some q` is an ordinary (finite)
value and `none` is NaN.  Every comparison involving NaN is `false`, mirroring
IEEE-754 / Python semantics; `abs` and negation map NaN to NaN; Python
truthiness (`if leg1 and leg2:`) treats NaN as truthy, `0.0` as falsy.
Each controller class is embedded as a structure holding exactly the fields its
`__init__` assigns, and its `control` method as a function
`control : C → LState → C × Action` returning the (possibly updated) object
together with the returned value, so that mutation of `self` and the
`'terminate'` sentinel are both observable.
-/

namespace Lander

/-- A Python float: `some q` is a finite value, `none` is NaN. -/
abbrev PyFloat := Option ℚ

/-- Python `a < b` on floats: false whenever an operand is NaN. -/
def flt : PyFloat → PyFloat → Bool
  | some a, some b => decide (a < b)
  | _, _ => false

/-- Python `a <= b` on floats: false whenever an operand is NaN. -/
def fle : PyFloat → PyFloat → Bool
  | some a, some b => decide (a ≤ b)
  | _, _ => false

/-- Python `a > b` on floats: false whenever an operand is NaN. -/
def fgt : PyFloat → PyFloat → Bool
  | some a, some b => decide (b < a)
  | _, _ => false

/-- Python `a >= b` on floats: false whenever an operand is NaN. -/
def fge : PyFloat → PyFloat → Bool
  | some a, some b => decide (b ≤ a)
  | _, _ => false

/-- Python `a == b` on floats: false whenever an operand is NaN. -/
def feq : PyFloat → PyFloat → Bool
  | some a, some b => decide (a = b)
  | _, _ => false

/-- Python `abs` / `np.abs`: NaN maps to NaN. -/
def fabs : PyFloat → PyFloat :=
  Option.map (fun a => |a|)

/-- Python unary minus: NaN maps to NaN. -/
def fneg : PyFloat → PyFloat :=
  Option.map (fun a => -a)

/-- Python truthiness of a float: `0.0` is falsy, every other value — NaN
included — is truthy. -/
def truthy : PyFloat → Bool
  | some a => decide (a ≠ 0)
  | none => true

/-- The 8-field observation vector
`[x, y, vx, vy, angle, angular_vel, left_contact, right_contact]`. -/
structure LState where
  x : PyFloat
  y : PyFloat
  vx : PyFloat
  vy : PyFloat
  angle : PyFloat
  angular_vel : PyFloat
  left_contact : PyFloat
  right_contact : PyFloat
deriving DecidableEq

/-- A value returned by a `control` method: a discrete actuator command
(`act 0` = no-op, `act 1` = left engine, `act 2` = main engine,
`act 3` = right engine) or the string sentinel `'terminate'`. -/
inductive Action where
  | act : ℕ → Action
  | terminate : Action
deriving DecidableEq

/-- The FSM states used by the `LTLSynthesizedController` family
(the source uses the strings `'Cruise'`, `'Approach'`, `'Align'`,
`'Touchdown'`). -/
inductive FSMState where
  | Cruise : FSMState
  | Approach : FSMState
  | Align : FSMState
  | Touchdown : FSMState
deriving DecidableEq

/-- The dict of atomic propositions returned by `_get_atomic_propositions`. -/
structure Props where
  p : Bool
  q : Bool
  r : Bool
  s : Bool
  near_ground : Bool
deriving DecidableEq

/-- `LTLSafeController` (file `chatgpt_single_prompt_controller.py`):
its `__init__` stores four threshold constants on `self`. -/
structure LTLSafeController where
  MAX_TILT : PyFloat
  MAX_X : PyFloat
  MAX_DESCENT_SPEED : PyFloat
  SAFE_DESCENT_SPEED : PyFloat
deriving DecidableEq

/-- The constants assigned by `LTLSafeController.__init__`:
`MAX_TILT = 0.4`, `MAX_X = 0.9`, `MAX_DESCENT_SPEED = 1.0`,
`SAFE_DESCENT_SPEED = 0.5`. -/
def LTLSafeController.mk_default : LTLSafeController :=
  { MAX_TILT := some (4/10)
    MAX_X := some (9/10)
    MAX_DESCENT_SPEED := some 1
    SAFE_DESCENT_SPEED := some (5/10) }

/-- `LTLSafeController.control` (lines 13–54): touchdown-stop check, then
horizontal-bound checks, then tilt checks, then altitude-dependent descent
checks, else no-op.  The method never assigns to `self`, hence returns the
object unchanged. -/
def LTLSafeController.control (c : LTLSafeController) (state : LState) :
    LTLSafeController × Action :=
  (c,
    -- if leg1 and leg2 and v_y >= -SAFE_DESCENT_SPEED and abs(v_x) < 1e-1
    if truthy state.left_contact && truthy state.right_contact
        && fge state.vy (fneg c.SAFE_DESCENT_SPEED)
        && flt (fabs state.vx) (some (1/10)) then
      Action.terminate
    -- if x > MAX_X: return 3
    else if fgt state.x c.MAX_X then Action.act 3
    -- if x < -MAX_X: return 1
    else if flt state.x (fneg c.MAX_X) then Action.act 1
    -- if angle > MAX_TILT: return 3
    else if fgt state.angle c.MAX_TILT then Action.act 3
    -- if angle < -MAX_TILT: return 1
    else if flt state.angle (fneg c.MAX_TILT) then Action.act 1
    -- if y < 0.2: near-ground descent check, else high-altitude check;
    -- both fall through to the final `return 0`.
    else if flt state.y (some (2/10)) then
      (if flt state.vy (fneg c.SAFE_DESCENT_SPEED) then Action.act 2 else Action.act 0)
    else
      (if flt state.vy (fneg c.MAX_DESCENT_SPEED) then Action.act 2 else Action.act 0))

/-- `LTLSynthesizedController` (file `ltl_chatgpt_controller.py`, first class):
its `__init__` stores five thresholds on `self`. -/
structure LTLSynthesizedController where
  x_threshold : PyFloat
  angle_threshold : PyFloat
  vx_threshold : PyFloat
  vy_threshold : PyFloat
  y_threshold : PyFloat
deriving DecidableEq

/-- Thresholds assigned by `LTLSynthesizedController.__init__`:
`x = 0.1`, `angle = 0.1`, `vx = 0.1`, `vy = 0.1`, `y = 0.2`. -/
def LTLSynthesizedController.mk_default : LTLSynthesizedController :=
  { x_threshold := some (1/10)
    angle_threshold := some (1/10)
    vx_threshold := some (1/10)
    vy_threshold := some (1/10)
    y_threshold := some (2/10) }

/-- `LTLSynthesizedController._get_atomic_propositions` (lines 15–33). -/
def LTLSynthesizedController.get_atomic_propositions
    (c : LTLSynthesizedController) (state : LState) : Props :=
  { p := fle (fabs state.x) c.x_threshold
    q := fle (fabs state.angle) c.angle_threshold
    r := fle (fabs state.vx) c.vx_threshold && fle (fabs state.vy) c.vy_threshold
    s := feq state.left_contact (some 1) && feq state.right_contact (some 1)
    near_ground := fle state.y c.y_threshold }

/-- `LTLSynthesizedController._get_fsm_state` (lines 35–52). -/
def LTLSynthesizedController.get_fsm_state (props : Props) : FSMState :=
  if props.s then FSMState.Touchdown
  else if props.near_ground then
    (if props.p && props.q && props.r then FSMState.Align else FSMState.Approach)
  else FSMState.Cruise

/-- `LTLSynthesizedController.control` (lines 54–101): FSM-dispatched action,
returning `'terminate'` in `Touchdown`.  No assignment to `self`. -/
def LTLSynthesizedController.control (c : LTLSynthesizedController)
    (observation : LState) : LTLSynthesizedController × Action :=
  (c,
    let state := observation
    let props := c.get_atomic_propositions state
    match LTLSynthesizedController.get_fsm_state props with
    | FSMState.Cruise =>
        if fgt state.x c.x_threshold then Action.act 1
        else if flt state.x (fneg c.x_threshold) then Action.act 3
        else Action.act 0
    | FSMState.Approach =>
        if fgt state.angle c.angle_threshold then Action.act 1
        else if flt state.angle (fneg c.angle_threshold) then Action.act 3
        else if flt state.vy (fneg c.vy_threshold) then Action.act 2
        else Action.act 0
    | FSMState.Align =>
        if flt state.vy (fneg c.vy_threshold) then Action.act 2
        else Action.act 0
    | FSMState.Touchdown => Action.terminate)

/-- `LTLSynthesizedControllerV2` (file `ltl_chatgpt_controller.py`, second
class): same threshold fields as the first class. -/
structure LTLSynthesizedControllerV2 where
  x_threshold : PyFloat
  angle_threshold : PyFloat
  vx_threshold : PyFloat
  vy_threshold : PyFloat
  y_threshold : PyFloat
deriving DecidableEq

/-- Thresholds assigned by `LTLSynthesizedControllerV2.__init__`
(identical to the first class). -/
def LTLSynthesizedControllerV2.mk_default : LTLSynthesizedControllerV2 :=
  { x_threshold := some (1/10)
    angle_threshold := some (1/10)
    vx_threshold := some (1/10)
    vy_threshold := some (1/10)
    y_threshold := some (2/10) }

/-- `LTLSynthesizedControllerV2._get_atomic_propositions`
(duplicated verbatim from the first class in the source). -/
def LTLSynthesizedControllerV2.get_atomic_propositions
    (c : LTLSynthesizedControllerV2) (state : LState) : Props :=
  { p := fle (fabs state.x) c.x_threshold
    q := fle (fabs state.angle) c.angle_threshold
    r := fle (fabs state.vx) c.vx_threshold && fle (fabs state.vy) c.vy_threshold
    s := feq state.left_contact (some 1) && feq state.right_contact (some 1)
    near_ground := fle state.y c.y_threshold }

/-- `LTLSynthesizedControllerV2._get_fsm_state`
(duplicated verbatim from the first class in the source). -/
def LTLSynthesizedControllerV2.get_fsm_state (props : Props) : FSMState :=
  if props.s then FSMState.Touchdown
  else if props.near_ground then
    (if props.p && props.q && props.r then FSMState.Align else FSMState.Approach)
  else FSMState.Cruise

/-- `LTLSynthesizedControllerV2.control` (lines 187–244): a global
excess-descent check fires the main engine before any FSM dispatch;
`Touchdown` returns `0`, not `'terminate'`. -/
def LTLSynthesizedControllerV2.control (c : LTLSynthesizedControllerV2)
    (observation : LState) : LTLSynthesizedControllerV2 × Action :=
  (c,
    let state := observation
    let props := c.get_atomic_propositions state
    -- if state[3] < -self.vy_threshold: return 2
    if flt state.vy (fneg c.vy_threshold) then Action.act 2
    else
      match LTLSynthesizedControllerV2.get_fsm_state props with
      | FSMState.Cruise =>
          if fgt state.x c.x_threshold then Action.act 1
          else if flt state.x (fneg c.x_threshold) then Action.act 3
          else Action.act 0
      | FSMState.Approach =>
          if fgt state.angle c.angle_threshold then Action.act 1
          else if flt state.angle (fneg c.angle_threshold) then Action.act 3
          else Action.act 0
      | FSMState.Align =>
          if flt state.vy (fneg c.vy_threshold) then Action.act 2
          else Action.act 0
      | FSMState.Touchdown => Action.act 0)

/-- `LTLSynthesizedControllerV3` (file `ltl_chatgpt_controller.py`, third
class): adds an angular-velocity threshold field. -/
structure LTLSynthesizedControllerV3 where
  x_threshold : PyFloat
  angle_threshold : PyFloat
  vx_threshold : PyFloat
  vy_threshold : PyFloat
  angular_vel_threshold : PyFloat
  y_threshold : PyFloat
deriving DecidableEq

/-- Thresholds assigned by `LTLSynthesizedControllerV3.__init__` (lines
246–255): `x = 0.3`, `angle = 0.1`, `vx = 0.1`, `vy = 1.0`,
`angular_vel = 0.1`, `y = 0.3`. -/
def LTLSynthesizedControllerV3.mk_default : LTLSynthesizedControllerV3 :=
  { x_threshold := some (3/10)
    angle_threshold := some (1/10)
    vx_threshold := some (1/10)
    vy_threshold := some 1
    angular_vel_threshold := some (1/10)
    y_threshold := some (3/10) }

/-- `LTLSynthesizedControllerV3._get_atomic_propositions` (lines 257–275). -/
def LTLSynthesizedControllerV3.get_atomic_propositions
    (c : LTLSynthesizedControllerV3) (state : LState) : Props :=
  { p := fle (fabs state.x) c.x_threshold
    q := fle (fabs state.angle) c.angle_threshold
    r := fle (fabs state.vx) c.vx_threshold && fle (fabs state.vy) c.vy_threshold
    s := feq state.left_contact (some 1) && feq state.right_contact (some 1)
    near_ground := fle state.y c.y_threshold }

/-- `LTLSynthesizedControllerV3._get_fsm_state` (lines 277–294). -/
def LTLSynthesizedControllerV3.get_fsm_state (props : Props) : FSMState :=
  if props.s then FSMState.Touchdown
  else if props.near_ground then
    (if props.p && props.q && props.r then FSMState.Align else FSMState.Approach)
  else FSMState.Cruise

/-- `LTLSynthesizedControllerV3.control` (lines 296–352): priority 1 is the
excess-descent check, priority 2 the angular-velocity checks, priority 3 the
FSM dispatch; `Touchdown` returns `0`. -/
def LTLSynthesizedControllerV3.control (c : LTLSynthesizedControllerV3)
    (observation : LState) : LTLSynthesizedControllerV3 × Action :=
  (c,
    let state := observation
    let props := c.get_atomic_propositions state
    -- Priority 1: if state[3] < -self.vy_threshold: return 2
    if flt state.vy (fneg c.vy_threshold) then Action.act 2
    -- Priority 2: angular-velocity correction
    else if fgt state.angular_vel c.angular_vel_threshold then Action.act 3
    else if flt state.angular_vel (fneg c.angular_vel_threshold) then Action.act 1
    -- Priority 3: FSM dispatch
    else
      match LTLSynthesizedControllerV3.get_fsm_state props with
      | FSMState.Cruise =>
          if fgt state.x c.x_threshold then Action.act 1
          else if flt state.x (fneg c.x_threshold) then Action.act 3
          else Action.act 0
      | FSMState.Approach =>
          if fgt state.angle c.angle_threshold then Action.act 1
          else if flt state.angle (fneg c.angle_threshold) then Action.act 3
          else Action.act 0
      | FSMState.Align =>
          if flt state.vy (fneg c.vy_threshold) then Action.act 2
          else Action.act 0
      | FSMState.Touchdown => Action.act 0)

/-- `ClaudeController` (file `claude_controller.py`): its `__init__` stores
seven numeric parameters on `self` (`max_angle = np.pi / 6`,
`max_velocity = 1.0`, `safe_landing_velocity = 0.5` and four gain values that
`control` never reads).  The parameters are kept symbolic here — `np.pi / 6`
is irrational — and every theorem below holds for all parameter values. -/
structure ClaudeController where
  max_angle : PyFloat
  max_velocity : PyFloat
  safe_landing_velocity : PyFloat
  altitude_gain : PyFloat
  angle_gain : PyFloat
  velocity_gain : PyFloat
  position_gain : PyFloat
deriving DecidableEq

/-- The landing-pad approach block at the end of `ClaudeController.control`
(lines 111–124).  It is reached either when no specification-violation branch
fired, or by fall-through from the velocity branch when
`abs(x_vel) <= abs(y_vel)` and `y_vel >= -max_velocity` (that inner `if` has
no `else`, so Python control flow continues past the whole `if/elif` chain). -/
def ClaudeController.approach_block (c : ClaudeController)
    (observation : LState) : Lander.Action :=
  if flt (fabs observation.x) (some (3/10)) then
    (if flt observation.vy (fneg c.safe_landing_velocity) then Action.act 2
     else Action.act 0)
  else
    (if fgt observation.x (some 0) then Action.act 1 else Action.act 3)

/-- `ClaudeController.control` (lines 36–128): an early return `0` when both
legs are in contact (Python truthiness of the two contact floats), then the
chain of specification-violation branches, then the landing-pad approach
block.  The local error variables computed in the source are never read, and
the trailing `return 0` is unreachable; the method never assigns to `self`
and never returns the `'terminate'` sentinel. -/
def ClaudeController.control (c : ClaudeController) (observation : LState) :
    ClaudeController × Action :=
  (c,
    -- landed = left_contact and right_contact; if landed: return 0
    if truthy observation.left_contact && truthy observation.right_contact then
      Action.act 0
    -- if altitude < 0.1 and y_vel < -0.5: return 2
    else if flt observation.y (some (1/10)) && flt observation.vy (some (-(5/10))) then
      Action.act 2
    -- elif abs(angle) > self.max_angle
    else if fgt (fabs observation.angle) c.max_angle then
      (if fgt observation.angle (some 0) then Action.act 1 else Action.act 3)
    -- elif abs(x_vel) > self.max_velocity or abs(y_vel) > self.max_velocity
    else if fgt (fabs observation.vx) c.max_velocity
        || fgt (fabs observation.vy) c.max_velocity then
      (if fgt (fabs observation.vx) (fabs observation.vy) then
        (if fgt observation.vx (some 0) then Action.act 1 else Action.act 3)
      else if flt observation.vy (fneg c.max_velocity) then Action.act 2
      else ClaudeController.approach_block c observation)
    else ClaudeController.approach_block c observation)

/-- `DeepSeekController` (file `deepseek_controller.py`): `__init__` stores
`prev_altitude = 0.0` and `prev_velocity = 0.0`; `control` reads neither. -/
structure DeepSeekController where
  prev_altitude : PyFloat
  prev_velocity : PyFloat
deriving DecidableEq

/-- `DeepSeekController.control` (lines 11–40): `action` starts at `0` and is
overwritten with `1` by each of three successive safety checks; the method
returns `action` and never assigns to `self`. -/
def DeepSeekController.control (c : DeepSeekController) (observation : LState) :
    DeepSeekController × Action :=
  (c,
    let action : ℕ := 0
    -- if y_pos < 0.2 and y_vel < -0.5: action = 1
    let action : ℕ :=
      if flt observation.y (some (2/10)) && flt observation.vy (some (-(5/10)))
      then 1 else action
    -- if abs(y_vel) > 5.0: action = 1
    let action : ℕ := if fgt (fabs observation.vy) (some 5) then 1 else action
    -- if abs(ang_vel) > 3.0: action = 1
    let action : ℕ := if fgt (fabs observation.angular_vel) (some 3) then 1 else action
    Action.act action)

/-- `LlamaController` (file `llama_controller.py`): `__init__` stores the
dict `self.ltl_properties` with three boolean entries, all `True`. -/
structure LlamaController where
  always_safe_altitude : Bool
  never_crash : Bool
  avoid_large_velocity : Bool
deriving DecidableEq

/-- The `self.ltl_properties` value assigned by `LlamaController.__init__`
and restored by `LlamaController.reset`. -/
def LlamaController.mk_default : LlamaController :=
  { always_safe_altitude := true
    never_crash := true
    avoid_large_velocity := true }

/-- `LlamaController.check_ltl_properties` (lines 21–34): overwrites all
three entries of `self.ltl_properties` from the current observation
(`observation[1] > -10.0`, `not (observation[1] < -0.8)`,
`np.abs(observation[2]) < 5.0`). -/
def LlamaController.check_ltl_properties (_c : LlamaController)
    (observation : LState) : LlamaController :=
  { always_safe_altitude := fgt observation.y (some (-10))
    never_crash := !(flt observation.y (some (-(8/10))))
    avoid_large_velocity := flt (fabs observation.vx) (some 5) }

/-- `LlamaController.control` (lines 36–56): first mutates
`self.ltl_properties` via `check_ltl_properties`, then branches on the three
freshly written entries and on `observation[2] > -0.5`. -/
def LlamaController.control (c : LlamaController) (observation : LState) :
    LlamaController × Action :=
  let c' := LlamaController.check_ltl_properties c observation
  (c',
    if !c'.always_safe_altitude then Action.act 3
    else if !c'.never_crash || !c'.avoid_large_velocity then Action.act 0
    else if fgt observation.vx (some (-(5/10))) then Action.act 0
    else Action.act 3)

/-- External collaborator of `RandomActionController` (the gym environment's
`action_space`): `sample()` returns a fresh pseudo-random draw on each call.
Modelled as the stream of values successive calls return, together with the
number of calls made so far; `sample` yields the next value of the stream and
advances the call counter. -/
structure ActionSpace where
  draws : ℕ → ℕ
  ncalls : ℕ

/-- One call of `action_space.sample()`. -/
def ActionSpace.sample (a : ActionSpace) : ℕ × ActionSpace :=
  (a.draws a.ncalls, { draws := a.draws, ncalls := a.ncalls + 1 })

/-- `RandomActionController` (file `random_action_controller.py`): holds the
environment (represented by its `action_space`, the only part `control`
touches). -/
structure RandomActionController where
  action_space : ActionSpace

/-- `RandomActionController.control` (lines 6–12):
`action = self.env.action_space.sample(); return action` — the observation is
ignored and the environment's random stream advances. -/
def RandomActionController.control (c : RandomActionController)
    (_observation : LState) : RandomActionController × Action :=
  let res := ActionSpace.sample c.action_space
  ({ action_space := res.2 }, Action.act res.1)

/-! Helper lemmas: every float comparison with a NaN operand is false. -/

theorem flt_nan_left (b : PyFloat) : flt none b = false := by cases b <;> rfl

theorem flt_nan_right (a : PyFloat) : flt a none = false := by cases a <;> rfl

theorem fle_nan_left (b : PyFloat) : fle none b = false := by cases b <;> rfl

theorem fgt_nan_left (b : PyFloat) : fgt none b = false := by cases b <;> rfl

theorem fge_nan_left (b : PyFloat) : fge none b = false := by cases b <;> rfl

theorem feq_nan_left (b : PyFloat) : feq none b = false := by cases b <;> rfl

theorem fabs_nan : fabs none = none := rfl

/-- Claim C2: mode-classification precedence of
`LTLSynthesizedController._get_fsm_state`.  If the touchdown proposition `s`
holds the mode is `Touchdown` regardless of the other propositions; otherwise,
if `near_ground` holds the mode is `Align` exactly when `p`, `q` and `r` all
hold and `Approach` otherwise; otherwise the mode is `Cruise`. -/
theorem c2_mode_classification_precedence :
    ∀ p q r s ng : Bool,
      (s = true →
        LTLSynthesizedController.get_fsm_state ⟨p, q, r, s, ng⟩ = FSMState.Touchdown) ∧
      (s = false → ng = true → (p && q && r) = true →
        LTLSynthesizedController.get_fsm_state ⟨p, q, r, s, ng⟩ = FSMState.Align) ∧
      (s = false → ng = true → (p && q && r) = false →
        LTLSynthesizedController.get_fsm_state ⟨p, q, r, s, ng⟩ = FSMState.Approach) ∧
      (s = false → ng = false →
        LTLSynthesizedController.get_fsm_state ⟨p, q, r, s, ng⟩ = FSMState.Cruise) := by
  decide

/-- Witness for C2 at concrete proposition sets. -/
theorem c2_mode_classification_precedence_witness :
    LTLSynthesizedController.get_fsm_state ⟨false, false, false, true, true⟩
      = FSMState.Touchdown ∧
    LTLSynthesizedController.get_fsm_state ⟨true, true, true, false, true⟩
      = FSMState.Align ∧
    LTLSynthesizedController.get_fsm_state ⟨true, false, true, false, true⟩
      = FSMState.Approach ∧
    LTLSynthesizedController.get_fsm_state ⟨true, true, true, false, false⟩
      = FSMState.Cruise :=
  ⟨(c2_mode_classification_precedence false false false true true).1 rfl,
   (c2_mode_classification_precedence true true true false true).2.1 rfl rfl rfl,
   (c2_mode_classification_precedence true false true false true).2.2.1 rfl rfl rfl,
   (c2_mode_classification_precedence true true true false false).2.2.2 rfl rfl⟩

/-- Claim C3: for any state with both leg contacts truthy, `vy = -0.1` and
`vx = 0.0`, `LTLSafeController.control` (with its constructed constants)
returns the `'terminate'` sentinel. -/
theorem c3_termination_condition (state : LState)
    (h1 : truthy state.left_contact = true)
    (h2 : truthy state.right_contact = true)
    (h3 : state.vy = some (-(1/10))) (h4 : state.vx = some 0) :
    (LTLSafeController.control LTLSafeController.mk_default state).2
      = Action.terminate := by
  norm_num [LTLSafeController.control, LTLSafeController.mk_default,
    h1, h2, h3, h4, fge, flt, fabs, fneg]

/-- Witness for C3 at the concrete state `[0, 0, 0, -0.1, 0, 0, 1, 1]`. -/
theorem c3_termination_condition_witness :
    truthy (some 1) = true ∧
    (LTLSafeController.control LTLSafeController.mk_default
      ⟨some 0, some 0, some 0, some (-(1/10)), some 0, some 0, some 1, some 1⟩).2
      = Action.terminate :=
  ⟨by norm_num [truthy],
   c3_termination_condition
     ⟨some 0, some 0, some 0, some (-(1/10)), some 0, some 0, some 1, some 1⟩
     (by norm_num [truthy]) (by norm_num [truthy]) rfl rfl⟩

/-- Claim C9: `DeepSeekController.control` only ever returns action `0` or
action `1`; it never returns `fire_main` (2) or `fire_right` (3). -/
theorem c9_deepseek_output_range :
    ∀ (c : DeepSeekController) (observation : LState),
      (DeepSeekController.control c observation).2 = Action.act 0 ∨
      (DeepSeekController.control c observation).2 = Action.act 1 := by
  intro c observation
  unfold DeepSeekController.control
  dsimp only
  split_ifs <;> simp

/-- Claim C10: `ClaudeController.control` returns `0` immediately whenever
both leg-contact fields are truthy, regardless of every other field and of
the controller parameters; and it never returns the `'terminate'` sentinel. -/
theorem c10_claude_landed_noop (c : ClaudeController) (observation : LState) :
    (truthy observation.left_contact = true →
      truthy observation.right_contact = true →
      (ClaudeController.control c observation).2 = Action.act 0) ∧
    (ClaudeController.control c observation).2 ≠ Action.terminate := by
  constructor
  · intro h1 h2
    simp [ClaudeController.control, h1, h2]
  · unfold ClaudeController.control ClaudeController.approach_block
    dsimp only
    split_ifs <;> simp

/-- Witness for C10 at a concrete controller and a landed state. -/
theorem c10_claude_landed_noop_witness :
    truthy (some 1) = true ∧
    (ClaudeController.control
      ⟨some (1/2), some 1, some (1/2), some 1, some 5, some (3/2), some (4/5)⟩
      ⟨some 2, some 3, some 4, some (-7), some 1, some 1, some 1, some 1⟩).2
      = Action.act 0 :=
  ⟨by norm_num [truthy],
   (c10_claude_landed_noop
     ⟨some (1/2), some 1, some (1/2), some 1, some 5, some (3/2), some (4/5)⟩
     ⟨some 2, some 3, some 4, some (-7), some 1, some 1, some 1, some 1⟩).1
     (by norm_num [truthy]) (by norm_num [truthy])⟩

/-- Claim C1 counterexample: the state `[0.95, 1.0, 0.0, -2.0, 0.0, 0.0, 0, 0]`
violates both the horizontal-position bound (`0.95 > MAX_X = 0.9`) and the
descent-speed bound (`-2.0 < -MAX_DESCENT_SPEED = -1.0`), yet
`LTLSafeController.control` — a rule-based variant — returns the
horizontal-position correction `3`, not `fire_main` (`2`): in this variant the
horizontal-bound rules are checked before the descent-speed rules. -/
theorem c1_counterexample :
    fgt (some (95/100)) LTLSafeController.mk_default.MAX_X = true ∧
    flt (some (-2)) (fneg LTLSafeController.mk_default.MAX_DESCENT_SPEED) = true ∧
    (LTLSafeController.control LTLSafeController.mk_default
      ⟨some (95/100), some 1, some 0, some (-2), some 0, some 0, some 0, some 0⟩).2
      = Action.act 3 ∧
    Action.act 3 ≠ Action.act 2 := by
  refine ⟨?_, ?_, ?_, by simp⟩ <;>
    norm_num [LTLSafeController.control, LTLSafeController.mk_default,
      flt, fgt, fge, fabs, fneg, truthy]

/-- Claim C1 (amended): in `LTLSynthesizedControllerV3` and
`LTLSynthesizedControllerV2` the excess-descent rule has top priority — any
state whose vertical velocity violates the descent bound gets `fire_main`
(action 2), in particular a state that simultaneously violates the
horizontal-position bound; but in the `LTLSafeController` variant the
horizontal-position rule is checked first, so a non-landed state violating
both bounds gets the horizontal correction `3` instead. -/
theorem c1_descent_rule_priority :
    (∀ (c : LTLSynthesizedControllerV3) (observation : LState),
      flt observation.vy (fneg c.vy_threshold) = true →
      (LTLSynthesizedControllerV3.control c observation).2 = Action.act 2) ∧
    (∀ (c : LTLSynthesizedControllerV2) (observation : LState),
      flt observation.vy (fneg c.vy_threshold) = true →
      (LTLSynthesizedControllerV2.control c observation).2 = Action.act 2) ∧
    (∀ state : LState, truthy state.left_contact = false →
      fgt state.x LTLSafeController.mk_default.MAX_X = true →
      flt state.vy (fneg LTLSafeController.mk_default.MAX_DESCENT_SPEED) = true →
      (LTLSafeController.control LTLSafeController.mk_default state).2
        = Action.act 3) := by
  refine ⟨?_, ?_, ?_⟩
  · intro c observation h
    simp [LTLSynthesizedControllerV3.control, h]
  · intro c observation h
    simp [LTLSynthesizedControllerV2.control, h]
  · intro state h0 hx _hvy
    simp [LTLSafeController.control, h0, hx]

/-- Witness for the amended C1 at the dual-violation state
`[0.95, 1.0, 0.0, -2.0, 0.0, 0.0, 0, 0]`. -/
theorem c1_descent_rule_priority_witness :
    flt (some (-2)) (fneg LTLSynthesizedControllerV3.mk_default.vy_threshold) = true ∧
    (LTLSynthesizedControllerV3.control LTLSynthesizedControllerV3.mk_default
      ⟨some (95/100), some 1, some 0, some (-2), some 0, some 0, some 0, some 0⟩).2
      = Action.act 2 ∧
    (LTLSafeController.control LTLSafeController.mk_default
      ⟨some (105/100), some 1, some 0, some (-2), some 0, some 0, some 0, some 0⟩).2
      = Action.act 3 :=
  ⟨by norm_num [flt, fneg, LTLSynthesizedControllerV3.mk_default],
   c1_descent_rule_priority.1 LTLSynthesizedControllerV3.mk_default
     ⟨some (95/100), some 1, some 0, some (-2), some 0, some 0, some 0, some 0⟩
     (by norm_num [flt, fneg, LTLSynthesizedControllerV3.mk_default]),
   c1_descent_rule_priority.2.2
     ⟨some (105/100), some 1, some 0, some (-2), some 0, some 0, some 0, some 0⟩
     (by norm_num [truthy])
     (by norm_num [fgt, LTLSafeController.mk_default])
     (by norm_num [flt, fneg, LTLSafeController.mk_default])⟩

/-- Claim C5 counterexample: for the state
`[0.0, 0.5, 0.0, -0.3, 0.0, 0.0, 0, 0]` under
`LTLSynthesizedControllerV3`'s constructed thresholds, the classified mode is
not `Approach` (it is `Cruise`: `y = 0.5` exceeds the near-ground bound
`0.3`); moreover the constructed default `x_threshold` is `0.3`, not the
`0.1` stated by the claim. -/
theorem c5_counterexample :
    LTLSynthesizedControllerV3.get_fsm_state
      (LTLSynthesizedControllerV3.get_atomic_propositions
        LTLSynthesizedControllerV3.mk_default
        ⟨some 0, some (5/10), some 0, some (-(3/10)), some 0, some 0, some 0, some 0⟩)
      ≠ FSMState.Approach ∧
    LTLSynthesizedControllerV3.mk_default.x_threshold ≠ some (1/10) := by
  constructor
  · norm_num [LTLSynthesizedControllerV3.get_fsm_state,
      LTLSynthesizedControllerV3.get_atomic_propositions,
      LTLSynthesizedControllerV3.mk_default, fle, feq, fabs]
    decide
  · norm_num [LTLSynthesizedControllerV3.mk_default]

/-- Claim C5 (amended): for the state `[0.0, 0.5, 0.0, -0.3, 0.0, 0.0, 0, 0]`
under `LTLSynthesizedControllerV3`'s constructed thresholds
(`x = 0.3`, `angle = 0.1`, `vx = 0.1`, `vy = 1.0`, `y = 0.3`), the mode is
`Cruise` — `y = 0.5` is not near ground — and `control` returns the `no_op`
action `0`. -/
theorem c5_end_to_end_scenario :
    LTLSynthesizedControllerV3.get_fsm_state
      (LTLSynthesizedControllerV3.get_atomic_propositions
        LTLSynthesizedControllerV3.mk_default
        ⟨some 0, some (5/10), some 0, some (-(3/10)), some 0, some 0, some 0, some 0⟩)
      = FSMState.Cruise ∧
    (LTLSynthesizedControllerV3.control LTLSynthesizedControllerV3.mk_default
      ⟨some 0, some (5/10), some 0, some (-(3/10)), some 0, some 0, some 0, some 0⟩).2
      = Action.act 0 := by
  constructor <;>
    norm_num [LTLSynthesizedControllerV3.control,
      LTLSynthesizedControllerV3.get_fsm_state,
      LTLSynthesizedControllerV3.get_atomic_propositions,
      LTLSynthesizedControllerV3.mk_default, fle, feq, fabs, flt, fgt, fneg]

/-- Claim C6: NaN (`none`) propagates as `false` through every threshold
comparison.  Each proposition computed by
`LTLSynthesizedController._get_atomic_propositions` from a NaN field is
`false`; each corrective guard of `LTLSafeController.control` on a NaN field
is `false`; and on the all-NaN state both controllers fall through to the
no-op action `0` — in this embedding both are total functions, so no
exception is possible, matching Python where comparisons with NaN return
`False` rather than raising. -/
theorem c6_nan_propagation (c : LTLSynthesizedController) (state : LState) :
    (state.x = none →
      (LTLSynthesizedController.get_atomic_propositions c state).p = false) ∧
    (state.angle = none →
      (LTLSynthesizedController.get_atomic_propositions c state).q = false) ∧
    (state.vx = none →
      (LTLSynthesizedController.get_atomic_propositions c state).r = false) ∧
    (state.vy = none →
      (LTLSynthesizedController.get_atomic_propositions c state).r = false) ∧
    (state.y = none →
      (LTLSynthesizedController.get_atomic_propositions c state).near_ground = false) ∧
    (state.x = none →
      fgt state.x LTLSafeController.mk_default.MAX_X = false ∧
      flt state.x (fneg LTLSafeController.mk_default.MAX_X) = false) ∧
    (state.angle = none →
      fgt state.angle LTLSafeController.mk_default.MAX_TILT = false ∧
      flt state.angle (fneg LTLSafeController.mk_default.MAX_TILT) = false) ∧
    (state.vy = none →
      fge state.vy (fneg LTLSafeController.mk_default.SAFE_DESCENT_SPEED) = false ∧
      flt state.vy (fneg LTLSafeController.mk_default.SAFE_DESCENT_SPEED) = false ∧
      flt state.vy (fneg LTLSafeController.mk_default.MAX_DESCENT_SPEED) = false) ∧
    (LTLSafeController.control LTLSafeController.mk_default
      ⟨none, none, none, none, none, none, none, none⟩).2 = Action.act 0 ∧
    (LTLSynthesizedController.control LTLSynthesizedController.mk_default
      ⟨none, none, none, none, none, none, none, none⟩).2 = Action.act 0 := by
  refine ⟨?_, ?_, ?_, ?_, ?_, ?_, ?_, ?_, ?_, ?_⟩
  · intro h
    simp [LTLSynthesizedController.get_atomic_propositions, h, fabs_nan, fle_nan_left]
  · intro h
    simp [LTLSynthesizedController.get_atomic_propositions, h, fabs_nan, fle_nan_left]
  · intro h
    simp [LTLSynthesizedController.get_atomic_propositions, h, fabs_nan, fle_nan_left]
  · intro h
    simp [LTLSynthesizedController.get_atomic_propositions, h, fabs_nan, fle_nan_left]
  · intro h
    simp [LTLSynthesizedController.get_atomic_propositions, h, fle_nan_left]
  · intro h
    simp [h, fgt_nan_left, flt_nan_left]
  · intro h
    simp [h, fgt_nan_left, flt_nan_left]
  · intro h
    simp [h, fge_nan_left, flt_nan_left]
  · simp [LTLSafeController.control, fge_nan_left, flt_nan_left, fgt_nan_left,
      fabs_nan, truthy]
  · simp [LTLSynthesizedController.control,
      LTLSynthesizedController.get_fsm_state,
      LTLSynthesizedController.get_atomic_propositions,
      fle_nan_left, flt_nan_left, fgt_nan_left, feq_nan_left, fabs_nan]

/-- Witness for C6 at the all-NaN state. -/
theorem c6_nan_propagation_witness :
    (LTLSynthesizedController.get_atomic_propositions
      LTLSynthesizedController.mk_default
      ⟨none, none, none, none, none, none, none, none⟩).p = false ∧
    fgt (none : PyFloat) LTLSafeController.mk_default.MAX_X = false ∧
    (LTLSafeController.control LTLSafeController.mk_default
      ⟨none, none, none, none, none, none, none, none⟩).2 = Action.act 0 :=
  ⟨(c6_nan_propagation LTLSynthesizedController.mk_default
      ⟨none, none, none, none, none, none, none, none⟩).1 rfl,
   ((c6_nan_propagation LTLSynthesizedController.mk_default
      ⟨none, none, none, none, none, none, none, none⟩).2.2.2.2.2.1 rfl).1,
   (c6_nan_propagation LTLSynthesizedController.mk_default
      ⟨none, none, none, none, none, none, none, none⟩).2.2.2.2.2.2.2.2.1⟩

/-- Claim C7 counterexample: `RandomActionController.control` is not a pure
function of its input — with the environment's random stream modelled as the
successive values `sample()` returns, two successive calls with the identical
observation yield different actions (here draws `0` then `1`). -/
theorem c7_counterexample :
    (RandomActionController.control
      { action_space := { draws := fun n => n, ncalls := 0 } }
      ⟨some 0, some 0, some 0, some 0, some 0, some 0, some 0, some 0⟩).2 ≠
    (RandomActionController.control
      ((RandomActionController.control
        { action_space := { draws := fun n => n, ncalls := 0 } }
        ⟨some 0, some 0, some 0, some 0, some 0, some 0, some 0, some 0⟩).1)
      ⟨some 0, some 0, some 0, some 0, some 0, some 0, some 0, some 0⟩).2 := by
  simp [RandomActionController.control, ActionSpace.sample]

/-- Claim C7 (amended): every hand-written controller of the repository other
than `RandomActionController` is deterministic — calling `control` a second
time with the same observation (from the object state the first call
returned) yields the same action.  `RandomActionController` is not: its
action is a fresh draw from the environment's random stream. -/
theorem c7_determinism :
    (∀ (c : LTLSafeController) (s : LState),
      (LTLSafeController.control (LTLSafeController.control c s).1 s).2
        = (LTLSafeController.control c s).2) ∧
    (∀ (c : LTLSynthesizedController) (s : LState),
      (LTLSynthesizedController.control (LTLSynthesizedController.control c s).1 s).2
        = (LTLSynthesizedController.control c s).2) ∧
    (∀ (c : LTLSynthesizedControllerV2) (s : LState),
      (LTLSynthesizedControllerV2.control (LTLSynthesizedControllerV2.control c s).1 s).2
        = (LTLSynthesizedControllerV2.control c s).2) ∧
    (∀ (c : LTLSynthesizedControllerV3) (s : LState),
      (LTLSynthesizedControllerV3.control (LTLSynthesizedControllerV3.control c s).1 s).2
        = (LTLSynthesizedControllerV3.control c s).2) ∧
    (∀ (c : ClaudeController) (s : LState),
      (ClaudeController.control (ClaudeController.control c s).1 s).2
        = (ClaudeController.control c s).2) ∧
    (∀ (c : DeepSeekController) (s : LState),
      (DeepSeekController.control (DeepSeekController.control c s).1 s).2
        = (DeepSeekController.control c s).2) ∧
    (∀ (c : LlamaController) (s : LState),
      (LlamaController.control (LlamaController.control c s).1 s).2
        = (LlamaController.control c s).2) :=
  ⟨fun _ _ => rfl, fun _ _ => rfl, fun _ _ => rfl, fun _ _ => rfl,
   fun _ _ => rfl, fun _ _ => rfl, fun _ _ => rfl⟩

/-- Claim C8 counterexample: `LlamaController.control` — a rule-based,
non-table-driven controller — does not leave the object unchanged: on the
observation with `y = -5`, the call flips the `never_crash` entry of
`self.ltl_properties` from its constructed value `True` to `False`. -/
theorem c8_counterexample :
    (LlamaController.control LlamaController.mk_default
      ⟨some 0, some (-5), some 0, some 0, some 0, some 0, some 0, some 0⟩).1.never_crash
      ≠ LlamaController.mk_default.never_crash := by
  norm_num [LlamaController.control, LlamaController.check_ltl_properties,
    LlamaController.mk_default, flt, fgt, fabs]

/-- Claim C8 (amended): the rule-based controllers other than
`LlamaController` retain nothing across ticks — `control` returns the object
unchanged; `LlamaController.control` rewrites its `ltl_properties` field, but
the rewritten value is a function of the current observation alone (the
post-call object does not depend on the pre-call object), so no cross-tick
data survives there either. -/
theorem c8_statelessness :
    (∀ (c : LTLSafeController) (s : LState),
      (LTLSafeController.control c s).1 = c) ∧
    (∀ (c : LTLSynthesizedController) (s : LState),
      (LTLSynthesizedController.control c s).1 = c) ∧
    (∀ (c : LTLSynthesizedControllerV2) (s : LState),
      (LTLSynthesizedControllerV2.control c s).1 = c) ∧
    (∀ (c : LTLSynthesizedControllerV3) (s : LState),
      (LTLSynthesizedControllerV3.control c s).1 = c) ∧
    (∀ (c : ClaudeController) (s : LState),
      (ClaudeController.control c s).1 = c) ∧
    (∀ (c : DeepSeekController) (s : LState),
      (DeepSeekController.control c s).1 = c) ∧
    (∀ (c1 c2 : LlamaController) (s : LState),
      (LlamaController.control c1 s).1 = (LlamaController.control c2 s).1) :=
  ⟨fun _ _ => rfl, fun _ _ => rfl, fun _ _ => rfl, fun _ _ => rfl,
   fun _ _ => rfl, fun _ _ => rfl, fun _ _ _ => rfl⟩

/-- Claim C4: boundary exactness of the corrective guards.  All bound
comparisons in the corrective rules are strict.  For `LTLSafeController`
(tilt threshold `MAX_TILT = 0.4`): with every other field nominal, at
`angle = 0.4` exactly the tilt rule does not fire (the controller returns
`0`), while for any `a > 0.4` it fires (`3`); symmetrically at `-0.4` and any
`-a < -0.4`; likewise the horizontal rule does not fire at `x = 0.9` exactly,
and the two descent rules do not fire at `vy = -1.0` (high altitude) and
`vy = -0.5` (near ground) exactly.  For `LTLSynthesizedController` in
`Approach` mode (angle threshold `0.1`): at `angle = 0.1` exactly the
tilt-correction rule does not fire (`0`), while for any `b > 0.1` it fires
(`1`). -/
theorem c4_boundary_exactness (a b : ℚ) (ha : (4:ℚ)/10 < a) (hb : (1:ℚ)/10 < b) :
    (∀ av l2 : PyFloat,
      (LTLSafeController.control LTLSafeController.mk_default
        ⟨some 0, some 1, some 0, some 0, some (4/10), av, some 0, l2⟩).2
        = Action.act 0) ∧
    (∀ av l2 : PyFloat,
      (LTLSafeController.control LTLSafeController.mk_default
        ⟨some 0, some 1, some 0, some 0, some a, av, some 0, l2⟩).2
        = Action.act 3) ∧
    (∀ av l2 : PyFloat,
      (LTLSafeController.control LTLSafeController.mk_default
        ⟨some 0, some 1, some 0, some 0, some (-(4/10)), av, some 0, l2⟩).2
        = Action.act 0) ∧
    (∀ av l2 : PyFloat,
      (LTLSafeController.control LTLSafeController.mk_default
        ⟨some 0, some 1, some 0, some 0, some (-a), av, some 0, l2⟩).2
        = Action.act 1) ∧
    (∀ av l2 : PyFloat,
      (LTLSafeController.control LTLSafeController.mk_default
        ⟨some (9/10), some 1, some 0, some 0, some 0, av, some 0, l2⟩).2
        = Action.act 0) ∧
    (∀ av l2 : PyFloat,
      (LTLSafeController.control LTLSafeController.mk_default
        ⟨some 0, some 1, some 0, some (-1), some 0, av, some 0, l2⟩).2
        = Action.act 0) ∧
    (∀ av l2 : PyFloat,
      (LTLSafeController.control LTLSafeController.mk_default
        ⟨some 0, some 0, some 0, some (-(5/10)), some 0, av, some 0, l2⟩).2
        = Action.act 0) ∧
    (∀ av : PyFloat,
      (LTLSynthesizedController.control LTLSynthesizedController.mk_default
        ⟨some (1/2), some (1/10), some 0, some 0, some (1/10), av, some 0, some 0⟩).2
        = Action.act 0) ∧
    (∀ av : PyFloat,
      (LTLSynthesizedController.control LTLSynthesizedController.mk_default
        ⟨some (1/2), some (1/10), some 0, some 0, some b, av, some 0, some 0⟩).2
        = Action.act 1) := by
  have ha2 : (2:ℚ)/5 < a := by linarith
  have ha3 : ¬((2:ℚ)/5 < -a) := by linarith
  have e1 : ¬(|(1:ℚ)/2| ≤ 1/10) := by
    rw [abs_of_pos] <;> norm_num
  refine ⟨?_, ?_, ?_, ?_, ?_, ?_, ?_, ?_, ?_⟩ <;> intro av <;> try intro l2
  · norm_num [LTLSafeController.control, LTLSafeController.mk_default,
      flt, fgt, fge, fabs, fneg, truthy]
  · norm_num [LTLSafeController.control, LTLSafeController.mk_default,
      flt, fgt, fge, fabs, fneg, truthy, ha2]
  · norm_num [LTLSafeController.control, LTLSafeController.mk_default,
      flt, fgt, fge, fabs, fneg, truthy]
  · norm_num [LTLSafeController.control, LTLSafeController.mk_default,
      flt, fgt, fge, fabs, fneg, truthy, ha2, ha3]
  · norm_num [LTLSafeController.control, LTLSafeController.mk_default,
      flt, fgt, fge, fabs, fneg, truthy]
  · norm_num [LTLSafeController.control, LTLSafeController.mk_default,
      flt, fgt, fge, fabs, fneg, truthy]
  · norm_num [LTLSafeController.control, LTLSafeController.mk_default,
      flt, fgt, fge, fabs, fneg, truthy]
  · norm_num [LTLSynthesizedController.control,
      LTLSynthesizedController.get_fsm_state,
      LTLSynthesizedController.get_atomic_propositions,
      LTLSynthesizedController.mk_default, fle, feq, fabs, flt, fgt, fneg, e1]
  · norm_num [LTLSynthesizedController.control,
      LTLSynthesizedController.get_fsm_state,
      LTLSynthesizedController.get_atomic_propositions,
      LTLSynthesizedController.mk_default, fle, feq, fabs, flt, fgt, fneg, hb, e1]

/-- Witness for C4 at `a = 1/2` (above the `0.4` tilt bound) and `b = 1/5`
(above the `0.1` tilt bound). -/
theorem c4_boundary_exactness_witness :
    ((4:ℚ)/10 < 1/2 ∧ (1:ℚ)/10 < 1/5) ∧
    (LTLSafeController.control LTLSafeController.mk_default
      ⟨some 0, some 1, some 0, some 0, some (4/10), none, some 0, none⟩).2
      = Action.act 0 ∧
    (LTLSafeController.control LTLSafeController.mk_default
      ⟨some 0, some 1, some 0, some 0, some (1/2), none, some 0, none⟩).2
      = Action.act 3 ∧
    (LTLSynthesizedController.control LTLSynthesizedController.mk_default
      ⟨some (1/2), some (1/10), some 0, some 0, some (1/5), none, some 0, some 0⟩).2
      = Action.act 1 :=
  ⟨⟨by norm_num, by norm_num⟩,
   (c4_boundary_exactness (1/2) (1/5) (by norm_num) (by norm_num)).1 none none,
   (c4_boundary_exactness (1/2) (1/5) (by norm_num) (by norm_num)).2.1 none none,
   (c4_boundary_exactness (1/2) (1/5) (by norm_num)
     (by norm_num)).2.2.2.2.2.2.2.2 none⟩

end Lander
